import Mathlib

/-!
Verification development for the waybar audio-visualizer broker
(`user_scripts/waybar/cava.py`).

The Python module is shallowly embedded below: pure helpers become Lean
functions, fallible operations (Python exceptions) return `Option`,
machine-level floating point interpolation is modelled with exact
rationals `ℚ` (Python's `round` half-to-even is `pyRound`), and the
stateful broadcast / liveness routines become explicit state-passing
functions over small state structures.
-/

namespace Cava

/-! ### Python primitive helpers

String operations are written structurally over the character list so
they evaluate inside the kernel; `String.data` of a literal reduces,
while the library's `trim`/`splitOn`/`toInt?` are well-founded
recursions that do not. -/

/-- `str.strip()`: drop whitespace from both ends. -/
def stripChars (l : List Char) : List Char :=
  ((l.dropWhile Char.isWhitespace).reverse.dropWhile Char.isWhitespace).reverse

/-- `line.strip()` on a string. -/
def pyStrip (s : String) : String := String.mk (stripChars s.data)

/-- `str.split(sep)` for a one-character separator: `"" ↦ [""]`,
`"a;;b" ↦ ["a", "", "b"]`. -/
def splitChar (sep : Char) : List Char → List (List Char)
  | [] => [[]]
  | c :: cs =>
    if c = sep then [] :: splitChar sep cs
    else
      match splitChar sep cs with
      | [] => [[c]]
      | t :: ts => (c :: t) :: ts

/-- `line.split(";")` as a list of strings. -/
def pySplit (s : String) (sep : Char) : List String :=
  (splitChar sep s.data).map String.mk

/-- `str.isdigit()` restricted to the ASCII digits (the fragment
exercised by the analyzer wire format, ASCII `;`-separated integers). -/
def isDigitToken (s : String) : Bool :=
  !s.data.isEmpty && s.data.all Char.isDigit

/-- Decimal value of a digit character list. -/
def digitsVal (l : List Char) : ℕ :=
  l.foldl (fun a c => 10 * a + (c.toNat - '0'.toNat)) 0

/-- `int(s)` on a string: strip whitespace, optional sign, decimal
digits (digit-group underscores are not modelled); `none` models a
raised `ValueError`. -/
def pyInt (s : String) : Option ℤ :=
  match stripChars s.data with
  | [] => none
  | '-' :: rest =>
    if !rest.isEmpty && rest.all Char.isDigit then some (-(digitsVal rest : ℤ))
    else none
  | '+' :: rest =>
    if !rest.isEmpty && rest.all Char.isDigit then some ((digitsVal rest : ℤ))
    else none
  | l =>
    if l.all Char.isDigit then some ((digitsVal l : ℤ)) else none

/-- Python 3 `round` on an exact rational: round half to even. -/
def pyRound (q : ℚ) : ℤ :=
  if q - (⌊q⌋ : ℚ) < 1/2 then ⌊q⌋
  else if q - (⌊q⌋ : ℚ) > 1/2 then ⌊q⌋ + 1
  else if ⌊q⌋ % 2 = 0 then ⌊q⌋ else ⌊q⌋ + 1

/-- Python sequence indexing `l[i]` with negative-index wraparound;
`none` models a raised `IndexError`. -/
def pyGet {α : Type} (l : List α) (i : ℤ) : Option α :=
  if 0 ≤ i then l[i.toNat]?
  else if 0 ≤ (l.length : ℤ) + i then l[((l.length : ℤ) + i).toNat]?
  else none

/-- A glyph string such as `"▁▂▃▄▅▆▇█"` viewed the way Python indexes it:
as the list of its one-character substrings. -/
def strGlyphs (s : String) : List String :=
  s.toList.map (fun c => String.mk [c])

/-- Effectful left-to-right traversal: Python's `for`-loop building a
result and raising at the first failing element. -/
def traverseOption {α β : Type} (f : α → Option β) : List α → Option (List β)
  | [] => some []
  | x :: xs => do
      let y ← f x
      let ys ← traverseOption f xs
      pure (y :: ys)

/-! ### CavaDataParser -/

/-- The `standby_mode` value: the CLI/waybar config supplies either a
string or an integer. -/
inductive Standby
  | num (n : ℤ)
  | str (s : String)
deriving DecidableEq

/-- Python `width or len(bar_chars)` (falsy `None`/`0` fall back). -/
def standbyWidth (width : Option ℕ) (barLen : ℕ) : ℕ :=
  match width with
  | some w => if w = 0 then barLen else w
  | none => barLen

/-- `CavaDataParser._handle_standby_mode` (cava.py lines 100-116);
`none` models the `IndexError` raised by `bar_chars[-1]` / `bar_chars[0]`
on an empty glyph list. -/
def handle_standby_mode (standby : Standby) (bar_chars : List String)
    (width : Option ℕ) : Option String :=
  match standby with
  | .str s => some s
  | .num n =>
    if n = 0 then some ""
    else if n = 1 then some "‎ "
    else if n = 2 then
      (bar_chars.getLast?).map fun c =>
        String.join (List.replicate (standbyWidth width bar_chars.length) c)
    else if n = 3 then
      (bar_chars.head?).map fun c =>
        String.join (List.replicate (standbyWidth width bar_chars.length) c)
    else some (toString n)

/-- `[int(x) for x in line.split(";") if x.isdigit()]` (cava.py line 59). -/
def parseValues (line : String) : List ℕ :=
  ((pySplit line ';').filter isDigitToken).map (fun s => digitsVal s.data)

/-- One iteration of the interpolation loop of `format_data`
(cava.py lines 71-84), producing the value for target index `i`.
`original_pos` is nonnegative for a nonempty source list, so Python's
truncating `int()` coincides with the floor used here. -/
def resampleAt (values : List ℕ) (width : ℕ) (i : ℕ) : ℤ :=
  let n := values.length
  let pos : ℚ := if 1 < width then ((i : ℚ) * ((n : ℚ) - 1)) / ((width : ℚ) - 1) else 0
  let left : ℕ := (⌊pos⌋).toNat
  let right : ℕ := min (left + 1) (n - 1)
  if left = right then ((values.getD left 0 : ℕ) : ℤ)
  else
    pyRound (((values.getD left 0 : ℕ) : ℚ)
      + (((values.getD right 0 : ℕ) : ℚ) - ((values.getD left 0 : ℕ) : ℚ))
        * (pos - (left : ℚ)))

/-- The interpolation loop of `format_data` (cava.py lines 70-86):
`expanded_values`, one entry per target index in `[0, width)`. -/
def resample (values : List ℕ) (width : ℕ) : List ℤ :=
  (List.range width).map (resampleAt values width)

/-- Glyph selection for one value (cava.py lines 91-96): clamp to the
final glyph at or above the glyph count, then index. `none` models the
`IndexError` on an empty glyph list. -/
def charFor (bar_chars : List String) (v : ℤ) : Option String :=
  let L : ℤ := bar_chars.length
  if L ≤ v then pyGet bar_chars (L - 1) else pyGet bar_chars v

/-- Total description of glyph selection for in-range arguments:
index `v` below the glyph count, the final glyph at or above it. -/
def glyphOf (bar_chars : List String) (v : ℤ) : String :=
  if (bar_chars.length : ℤ) ≤ v then bar_chars.getD (bar_chars.length - 1) ""
  else bar_chars.getD v.toNat ""

/-- `CavaDataParser.format_data` (cava.py lines 51-98). `none` models an
uncaught exception escaping the function. -/
def format_data (line : String) (bar_chars : List String) (width : Option ℕ)
    (standby : Standby) : Option String :=
  let line := pyStrip line
  if line = "" then handle_standby_mode standby bar_chars width
  else
    let values := parseValues line
    if values.isEmpty || values.all (· == 0) then
      handle_standby_mode standby bar_chars width
    else
      let w : ℕ :=
        match width with
        | some w => if w = 0 then values.length else w
        | none => values.length
      let finalValues : List ℤ :=
        if values.length = w then values.map (fun v : ℕ => (v : ℤ))
        else resample values w
      (traverseOption (charFor bar_chars) finalValues).map String.join

/-- The sample list `format_data` maps to glyphs on the data path with
an explicit width `W`: the parsed values when their count already equals
`W`, otherwise their resampling to `W` entries. -/
def finalValues (line : String) (W : ℕ) : List ℤ :=
  let values := parseValues (pyStrip line)
  if values.length = W then values.map (fun v : ℕ => (v : ℤ))
  else resample values W

/-! ### Subscriber configuration layering -/

/-- `CavaWaybarClient._get_config_value` (cava.py lines 531-539): the
command-line attribute wins when it exists and is not `None`; otherwise
`config.get(key, default)`.  `argVal = none` models a missing attribute
or a `None` value; `cfgVal = none` models an absent config key. -/
def get_config_value {α : Type} (argVal : Option α) (cfgVal : Option α)
    (dflt : α) : α :=
  match argVal with
  | some v => v
  | none => cfgVal.getD dflt

/-- The built-in default glyph string, as the list Python indexes. -/
def defaultGlyphs : List String := strGlyphs "▁▂▃▄▅▆▇█"

/-- Resolution of the glyph sequence (cava.py lines 556-558).  The
`"bar-array"` lookup passes `none` for the argument side because
`hasattr(args, "bar-array")` is false (argparse stores the attribute as
`bar_array`), so `argBarArray` never influences the result; an empty
config array is falsy and is ignored. -/
def resolve_bar_chars (argBar : Option String) (_argBarArray : Option (List String))
    (cfgBar : Option String) (cfgBarArray : Option (List String)) : List String :=
  let bar := strGlyphs (get_config_value argBar cfgBar "▁▂▃▄▅▆▇█")
  match get_config_value (α := Option (List String)) none cfgBarArray none with
  | some arr => if arr.isEmpty then bar else arr
  | none => bar

/-- Resolution of the display width (cava.py lines 560-562):
`_get_config_value("width", None)`, then fall back to the glyph count
(or 8 for an empty glyph list). -/
def resolve_width (argWidth : Option ℤ) (cfgWidth : Option ℤ)
    (bar_chars : List String) : ℤ :=
  match get_config_value (argWidth.map some) (cfgWidth.map some) none with
  | some v => v
  | none => if bar_chars.isEmpty then 8 else bar_chars.length

/-- Resolution of the standby policy (cava.py lines 564-566):
`_get_config_value("stb", 0)` followed by the digit-string conversion. -/
def resolve_stb (argStb : Option Standby) (cfgStb : Option Standby) : Standby :=
  let s := get_config_value argStb cfgStb (.num 0)
  match s with
  | .str t => if isDigitToken t then .num (t.toNat?.getD 0) else .str t
  | x => x

/-! ### Analyzer configuration generation -/

/-- The four `CAVA_*` environment variables read by
`CavaServer._create_cava_config`; `none` models an unset variable. -/
structure CavaEnv where
  bars : Option String
  range : Option String
  channels : Option String
  reverse : Option String
deriving DecidableEq

/-- The parameters written into the generated analyzer configuration. -/
structure CavaConfigParams where
  bars : ℤ
  range_val : ℤ
  channels : String
  reverse : ℤ
deriving DecidableEq

/-- Parameter resolution of `CavaServer._create_cava_config`
(cava.py lines 304-316): every environment variable, when set, replaces
the function argument (which `main` fills from the CLI); `none` models
the `ValueError` of `int()` on a malformed `CAVA_BARS`/`CAVA_RANGE`.
A malformed `CAVA_REVERSE` falls back to the truthy-string test. -/
def resolveCavaParams (env : CavaEnv) (bars range_val : ℤ) (channels : String)
    (reverse : ℤ) : Option CavaConfigParams := do
  let b ← match env.bars with
    | some s => pyInt s
    | none => pure bars
  let r ← match env.range with
    | some s => pyInt s
    | none => pure range_val
  let c := env.channels.getD channels
  let v : ℤ :=
    match env.reverse with
    | some s =>
      match pyInt s with
      | some k => k
      | none => if s.toLower = "true" || s.toLower = "yes" || s.toLower = "on" then 1 else 0
    | none => reverse
  pure ⟨b, r, c, v⟩

/-- All four environment variables unset. -/
def emptyEnv : CavaEnv := ⟨none, none, none, none⟩

/-- `CavaServer._reload_cava_process` regenerates the configuration via
`self._create_cava_config()` with no arguments (cava.py line 293), i.e.
with the function defaults `bars=16, range_val=15, channels="stereo",
reverse=0`; only environment overrides carry over. -/
def reload_config_params (env : CavaEnv) : Option CavaConfigParams :=
  resolveCavaParams env 16 15 "stereo" 0

/-! ### Broker broadcast state -/

/-- The broker state touched by `CavaServer._broadcast_data`: the
subscriber set, the `should_shutdown` flag, the `shutdown_event` the
main wait loop and worker loops actually watch (cava.py lines 393, 406,
448), and whether the analyzer subprocess is alive. -/
structure BrokerState where
  clients : List ℕ
  should_shutdown : Bool
  shutdown_event : Bool
  cava_alive : Bool
deriving DecidableEq

/-- `CavaServer._broadcast_data` (cava.py lines 227-251) for one line:
`sendFails c = true` means `sendall` to client `c` raised.  Failing
clients are closed and removed; if the set is then empty and the flag is
unset, the flag is set and the analyzer terminated.  `shutdown_event`
is never touched here. -/
def broadcast_data (s : BrokerState) (sendFails : ℕ → Bool) : BrokerState :=
  let remaining := s.clients.filter (fun c => !(sendFails c))
  if remaining.isEmpty && !s.should_shutdown then
    { s with clients := remaining, should_shutdown := true, cava_alive := false }
  else
    { s with clients := remaining }

/-- The condition of the broker's main wait loop
(`while not self.shutdown_event.is_set()`, cava.py line 448). -/
def main_loop_continues (s : BrokerState) : Bool := !s.shutdown_event

/-! ### The `manager` subcommand -/

/-- Outcome of `main`'s `manager` branch (cava.py lines 696-701). -/
inductive ManagerOutcome
  | exited (code : ℕ)
  | started (bars range_val : ℤ) (channels : String) (reverse : ℤ)
deriving DecidableEq

/-- `main`'s `manager` branch: if the liveness check reports running,
print a message and `sys.exit(0)`; otherwise start the server with the
CLI parameters. -/
def manager_command (running : Bool) (bars range_val : ℤ) (channels : String)
    (reverse : ℤ) : ManagerOutcome :=
  if running then .exited 0 else .started bars range_val channels reverse

/-! ### Liveness Registry -/

/-- The filesystem / process facts `CavaServer._quick_check_running`
observes: whether the socket file exists, whether connecting to it
succeeds, the pid file's contents (`none` = missing), and whether
`os.kill(pid, 0)` succeeds for a given pid. -/
structure World where
  socket_exists : Bool
  socket_connectable : Bool
  pid_file : Option String
  processAlive : ℤ → Bool

/-- The pid-file half of `_quick_check_running` (cava.py lines 206-223):
malformed contents or a dead pid delete the file and report not-alive. -/
def check_pid_file (w : World) : Bool × World :=
  match w.pid_file with
  | none => (false, w)
  | some s =>
    match pyInt s with
    | some pid =>
      if w.processAlive pid then (true, w)
      else (false, { w with pid_file := none })
    | none => (false, { w with pid_file := none })

/-- `CavaServer._quick_check_running` (cava.py lines 192-225): prefer a
socket connection attempt; an existing but unconnectable socket file is
deleted and the pid file is consulted.  Every exception the code can
meet in this domain is caught, so the embedding is a total function
returning a boolean plus the updated artifacts. -/
def quick_check_running (w : World) : Bool × World :=
  if w.socket_exists then
    if w.socket_connectable then (true, w)
    else check_pid_file { w with socket_exists := false }
  else check_pid_file w

/-! ### Subscriber initial emission -/

/-- One JSON record the waybar client prints. -/
structure WaybarOutput where
  text : String
  tooltip : String
deriving DecidableEq

/-- The records emitted by `CavaWaybarClient.start` immediately after a
successful connect, before any broadcast data is read (cava.py lines
589-597): the standby rendering is computed and printed only if truthy
(non-empty).  `none` models the rendering itself raising. -/
def client_initial_records (standby : Standby) (bar_chars : List String)
    (width : Option ℕ) : Option (List WaybarOutput) :=
  (handle_standby_mode standby bar_chars width).map fun s =>
    if s = "" then []
    else [⟨s, "Cava audio visualizer - standby mode"⟩]

/-! ## Theorems -/

/-! ### Formatter helper lemmas -/

theorem traverseOption_eq_map {α β : Type} (f : α → Option β) (g : α → β) :
    ∀ xs : List α, (∀ x ∈ xs, f x = some (g x)) →
      traverseOption f xs = some (xs.map g)
  | [], _ => rfl
  | x :: xs, h => by
    have hx : f x = some (g x) := h x (List.mem_cons_self x xs)
    have hxs := traverseOption_eq_map f g xs
      (fun y hy => h y (List.mem_cons_of_mem x hy))
    simp [traverseOption, hx, hxs]

theorem pyRound_nonneg (q : ℚ) (h : 0 ≤ q) : 0 ≤ pyRound q := by
  have hf : (0 : ℤ) ≤ ⌊q⌋ := Int.floor_nonneg.mpr h
  unfold pyRound
  split
  · exact hf
  · split
    · omega
    · split <;> omega

theorem pyRound_natCast (k : ℕ) : pyRound ((k : ℕ) : ℚ) = (k : ℤ) := by
  unfold pyRound
  rw [Int.floor_natCast]
  norm_num

theorem interp_nonneg (a b f : ℚ) (ha : 0 ≤ a) (hb : 0 ≤ b) (hf : 0 ≤ f)
    (hf1 : f ≤ 1) : 0 ≤ a + (b - a) * f := by
  nlinarith [mul_nonneg ha (by linarith : (0:ℚ) ≤ 1 - f), mul_nonneg hb hf]

theorem resampleAt_nonneg (values : List ℕ) (W i : ℕ) (hn : values ≠ []) :
    0 ≤ resampleAt values W i := by
  have hn1 : 1 ≤ values.length := List.length_pos.mpr hn
  unfold resampleAt
  dsimp only
  set pos : ℚ := (if 1 < W then
    ((i : ℚ) * ((values.length : ℚ) - 1)) / ((W : ℚ) - 1) else 0) with hpos_def
  have hpos : 0 ≤ pos := by
    rw [hpos_def]
    split
    · rename_i hw
      apply div_nonneg
      · apply mul_nonneg (Nat.cast_nonneg i)
        have h1 : (1:ℚ) ≤ (values.length : ℚ) := by exact_mod_cast hn1
        linarith
      · have h2 : (1:ℚ) < (W : ℚ) := by exact_mod_cast hw
        linarith
    · exact le_refl 0
  split
  · exact Int.natCast_nonneg _
  · apply pyRound_nonneg
    have hfl : (0:ℤ) ≤ ⌊pos⌋ := Int.floor_nonneg.mpr hpos
    have hleft : ((⌊pos⌋.toNat : ℕ) : ℚ) = ((⌊pos⌋ : ℤ) : ℚ) := by
      exact_mod_cast congrArg (fun z : ℤ => (z : ℚ)) (Int.toNat_of_nonneg hfl)
    have hfr0 : 0 ≤ pos - ((⌊pos⌋.toNat : ℕ) : ℚ) := by
      rw [hleft]
      exact sub_nonneg.mpr (Int.floor_le pos)
    have hfr1 : pos - ((⌊pos⌋.toNat : ℕ) : ℚ) ≤ 1 := by
      rw [hleft]
      have := Int.lt_floor_add_one pos
      linarith
    exact interp_nonneg _ _ _ (Nat.cast_nonneg _) (Nat.cast_nonneg _) hfr0 hfr1

theorem resample_length (values : List ℕ) (W : ℕ) :
    (resample values W).length = W := by
  simp [resample]

theorem resample_getElem? (values : List ℕ) (W i : ℕ) (hi : i < W) :
    (resample values W)[i]? = some (resampleAt values W i) := by
  rw [resample, List.getElem?_map, List.getElem?_range hi, Option.map_some']

theorem resampleAt_zero (values : List ℕ) (W : ℕ) (_hn : values ≠ []) :
    resampleAt values W 0 = ((values.getD 0 0 : ℕ) : ℤ) := by
  unfold resampleAt
  dsimp only
  simp only [Nat.cast_zero, zero_mul, zero_div, ite_self, Int.floor_zero,
    Int.toNat_zero, zero_add]
  by_cases h : values.length - 1 = 0
  · rw [h]
    norm_num
  · have hr : min 1 (values.length - 1) = 1 := by omega
    rw [hr, if_neg (by omega : (0:ℕ) ≠ 1)]
    norm_num
    exact pyRound_natCast _

theorem resampleAt_last (values : List ℕ) (W : ℕ) (hn : values ≠ [])
    (hW : 2 ≤ W) :
    resampleAt values W (W - 1) = ((values.getD (values.length - 1) 0 : ℕ) : ℤ) := by
  have h1W : 1 < W := by omega
  have hn1 : 1 ≤ values.length := List.length_pos.mpr hn
  unfold resampleAt
  dsimp only
  rw [if_pos h1W]
  have hWne : ((W : ℚ) - 1) ≠ 0 := by
    have h2 : (1:ℚ) < (W : ℚ) := by exact_mod_cast h1W
    intro hc
    linarith
  have hcast : (((W - 1 : ℕ)) : ℚ) = (W : ℚ) - 1 := by
    rw [Nat.cast_sub (by omega : 1 ≤ W), Nat.cast_one]
  have hpos : ((W - 1 : ℕ) : ℚ) * ((values.length : ℚ) - 1) / ((W : ℚ) - 1)
      = (values.length : ℚ) - 1 := by
    rw [hcast, mul_comm, mul_div_assoc, div_self hWne, mul_one]
  rw [hpos]
  have hfl : ⌊(values.length : ℚ) - 1⌋ = (values.length : ℤ) - 1 := by
    rw [show ((values.length : ℚ) - 1) = (((values.length : ℤ) - 1 : ℤ) : ℚ) by
      push_cast
      ring]
    exact Int.floor_intCast _
  rw [hfl]
  have htn : ((values.length : ℤ) - 1).toNat = values.length - 1 := by omega
  rw [htn]
  have hmin : min (values.length - 1 + 1) (values.length - 1)
      = values.length - 1 := by omega
  rw [hmin, if_pos rfl]

theorem charFor_eq_glyphOf (bar_chars : List String) (hbc : bar_chars ≠ [])
    (v : ℤ) (hv : 0 ≤ v) :
    charFor bar_chars v = some (glyphOf bar_chars v) := by
  have hlen : 0 < bar_chars.length := List.length_pos.mpr hbc
  unfold charFor glyphOf pyGet
  by_cases h : (bar_chars.length : ℤ) ≤ v
  · rw [if_pos h, if_pos h, if_pos (by omega : (0:ℤ) ≤ (bar_chars.length : ℤ) - 1)]
    have ht : ((bar_chars.length : ℤ) - 1).toNat = bar_chars.length - 1 := by omega
    have hlt : bar_chars.length - 1 < bar_chars.length := by omega
    rw [ht, List.getElem?_eq_getElem hlt, List.getD_eq_getElem?_getD,
      List.getElem?_eq_getElem hlt]
    rfl
  · rw [if_neg h, if_neg h, if_pos hv]
    have hlt : v.toNat < bar_chars.length := by omega
    rw [List.getElem?_eq_getElem hlt, List.getD_eq_getElem?_getD,
      List.getElem?_eq_getElem hlt]
    rfl

theorem glyphOf_mem (bar_chars : List String) (hbc : bar_chars ≠ [])
    (v : ℤ) (hv : 0 ≤ v) : glyphOf bar_chars v ∈ bar_chars := by
  have hlen : 0 < bar_chars.length := List.length_pos.mpr hbc
  unfold glyphOf
  split
  · rw [List.getD_eq_getElem?_getD,
      List.getElem?_eq_getElem (by omega : bar_chars.length - 1 < bar_chars.length)]
    exact List.getElem_mem _
  · rename_i h
    have hlt : v.toNat < bar_chars.length := by omega
    rw [List.getD_eq_getElem?_getD, List.getElem?_eq_getElem hlt]
    exact List.getElem_mem _

theorem finalValues_length (line : String) (W : ℕ) :
    (finalValues line W).length = W := by
  unfold finalValues
  dsimp only
  split
  · rename_i h
    rw [List.length_map]
    exact h
  · exact resample_length _ _

theorem finalValues_nonneg (line : String) (W : ℕ)
    (h1 : parseValues (pyStrip line) ≠ []) :
    ∀ v ∈ finalValues line W, 0 ≤ v := by
  unfold finalValues
  dsimp only
  split
  · intro v hv
    obtain ⟨x, _, rfl⟩ := List.mem_map.mp hv
    exact Int.natCast_nonneg x
  · intro v hv
    obtain ⟨i, _, rfl⟩ := List.mem_map.mp hv
    exact resampleAt_nonneg _ _ _ h1

theorem finalValues_getElem_zero (line : String) (W : ℕ)
    (h1 : parseValues (pyStrip line) ≠ []) (hW : 1 ≤ W) :
    (finalValues line W)[0]? =
      some (((parseValues (pyStrip line)).getD 0 0 : ℕ) : ℤ) := by
  have h0 : 0 < (parseValues (pyStrip line)).length := List.length_pos.mpr h1
  unfold finalValues
  dsimp only
  split
  · rw [List.getElem?_map, List.getElem?_eq_getElem h0, Option.map_some',
      List.getD_eq_getElem?_getD, List.getElem?_eq_getElem h0]
    rfl
  · rw [resample_getElem? _ _ _ (by omega : 0 < W), resampleAt_zero _ _ h1]

theorem finalValues_getElem_last (line : String) (W : ℕ)
    (h1 : parseValues (pyStrip line) ≠ []) (hW : 2 ≤ W) :
    (finalValues line W)[W - 1]? =
      some (((parseValues (pyStrip line)).getD
        ((parseValues (pyStrip line)).length - 1) 0 : ℕ) : ℤ) := by
  have h0 : 0 < (parseValues (pyStrip line)).length := List.length_pos.mpr h1
  unfold finalValues
  dsimp only
  split
  · rename_i hlen
    have hlt : W - 1 < (parseValues (pyStrip line)).length := by omega
    rw [List.getElem?_map, List.getElem?_eq_getElem hlt, Option.map_some',
      List.getD_eq_getElem?_getD,
      List.getElem?_eq_getElem (by omega : (parseValues (pyStrip line)).length - 1
        < (parseValues (pyStrip line)).length)]
    have heq : W - 1 = (parseValues (pyStrip line)).length - 1 := by omega
    simp only [heq]
    rfl
  · rw [resample_getElem? _ _ _ (by omega : W - 1 < W),
      resampleAt_last _ _ h1 hW]

theorem format_data_eq (line : String) (bar_chars : List String) (W : ℕ)
    (stb : Standby) (h1 : parseValues (pyStrip line) ≠ [])
    (h2 : (parseValues (pyStrip line)).all (· == 0) = false)
    (hbc : bar_chars ≠ []) (hW : 1 ≤ W) :
    format_data line bar_chars (some W) stb =
      some (String.join ((finalValues line W).map (glyphOf bar_chars))) := by
  have hline : ¬(pyStrip line = "") := by
    intro h
    apply h1
    rw [h]
    decide
  have hempty : (parseValues (pyStrip line)).isEmpty = false := by
    cases h : parseValues (pyStrip line) with
    | nil => exact absurd h h1
    | cons a t => rfl
  have htrav := traverseOption_eq_map (charFor bar_chars) (glyphOf bar_chars)
    (finalValues line W)
    (fun v hv => charFor_eq_glyphOf bar_chars hbc v (finalValues_nonneg line W h1 v hv))
  unfold format_data
  rw [if_neg hline]
  dsimp only
  rw [hempty, h2]
  simp only [Bool.or_self, Bool.false_eq_true, if_false,
    if_neg (by omega : ¬W = 0)]
  unfold finalValues at htrav ⊢
  dsimp only at htrav ⊢
  rw [htrav, Option.map_some']

/-! ### Claim C1 and C8 theorems -/

/-- Claim C1: for every line parsing to a nonempty, not-all-zero value
list, every non-empty glyph list, and every width `W ≥ 1`, `format_data`
returns the concatenation of exactly `W` glyphs, each obtained from a
(possibly resampled) sample value by the clamped selection `glyphOf`
(index `v` below the glyph count, the final glyph at or above it), and
every emitted glyph belongs to the configured glyph list. -/
theorem c1_format_width_and_clamp (line : String) (bar_chars : List String)
    (W : ℕ) (stb : Standby) (h1 : parseValues (pyStrip line) ≠ [])
    (h2 : (parseValues (pyStrip line)).all (· == 0) = false)
    (hbc : bar_chars ≠ []) (hW : 1 ≤ W) :
    format_data line bar_chars (some W) stb =
      some (String.join ((finalValues line W).map (glyphOf bar_chars))) ∧
    ((finalValues line W).map (glyphOf bar_chars)).length = W ∧
    ∀ g ∈ (finalValues line W).map (glyphOf bar_chars), g ∈ bar_chars := by
  refine ⟨format_data_eq line bar_chars W stb h1 h2 hbc hW, ?_, ?_⟩
  · rw [List.length_map]
    exact finalValues_length line W
  · intro g hg
    obtain ⟨v, hv, rfl⟩ := List.mem_map.mp hg
    exact glyphOf_mem bar_chars hbc v (finalValues_nonneg line W h1 v hv)

/-- Claim C1 witness: the specification's scenario `"0;5;10;15"` with
glyphs `"▁▂▃▄"` and width 4 renders four glyphs, `"▁▄▄▄"`. -/
theorem c1_format_width_and_clamp_witness :
    format_data "0;5;10;15" (strGlyphs "▁▂▃▄") (some 4) (Standby.num 0)
      = some "▁▄▄▄" := by
  have h := c1_format_width_and_clamp "0;5;10;15" (strGlyphs "▁▂▃▄") 4
    (Standby.num 0) (by decide) (by decide) (by decide) (by decide)
  exact h.1.trans (by decide)

/-- Claim C8 counterexample: at width 1 the interpolation position is
fixed at 0, so for the line `"1;2"` with glyphs `"▁▂▃"` the single
output glyph is `"▂"` (from the interpolated value 1), while the glyph
mapping of the last input sample (2) is `"▃"` — the last output glyph
does not correspond to the last input sample. -/
theorem c8_counterexample :
    format_data "1;2" (strGlyphs "▁▂▃") (some 1) (Standby.num 0) = some "▂" ∧
    glyphOf (strGlyphs "▁▂▃")
      (((parseValues (pyStrip "1;2")).getD
        ((parseValues (pyStrip "1;2")).length - 1) 0 : ℕ) : ℤ) = "▃" ∧
    ("▂" : String) ≠ "▃" := by
  refine ⟨?_, by decide, by decide⟩
  have he := format_data_eq "1;2" (strGlyphs "▁▂▃") 1 (Standby.num 0)
    (by decide) (by decide) (by decide) (by omega)
  rw [he]
  have h2 : finalValues "1;2" 1 = [1] := by
    have hv : parseValues (pyStrip "1;2") = [1, 2] := by decide
    unfold finalValues
    dsimp only
    rw [hv, if_neg (by decide : ¬([1, 2] : List ℕ).length = 1)]
    show resample [1, 2] 1 = [1]
    have hr : List.range 1 = [0] := rfl
    rw [resample, hr, List.map_singleton, resampleAt_zero [1, 2] 1 (by decide)]
    rfl
  rw [h2]
  decide

/-- Claim C8 (amended): endpoint preservation holds for every width
`W ≥ 2` (the `W = 1` case is excluded: there the single output comes
from the first sample): the first output glyph is the glyph mapping of
the first input sample and the last output glyph is the glyph mapping of
the last input sample. -/
theorem c8_amended_endpoints (line : String) (bar_chars : List String)
    (W : ℕ) (stb : Standby) (h1 : parseValues (pyStrip line) ≠ [])
    (h2 : (parseValues (pyStrip line)).all (· == 0) = false)
    (hbc : bar_chars ≠ []) (hW : 2 ≤ W) :
    format_data line bar_chars (some W) stb =
      some (String.join ((finalValues line W).map (glyphOf bar_chars))) ∧
    ((finalValues line W).map (glyphOf bar_chars)).head? =
      some (glyphOf bar_chars
        (((parseValues (pyStrip line)).getD 0 0 : ℕ) : ℤ)) ∧
    ((finalValues line W).map (glyphOf bar_chars)).getLast? =
      some (glyphOf bar_chars
        (((parseValues (pyStrip line)).getD
          ((parseValues (pyStrip line)).length - 1) 0 : ℕ) : ℤ)) := by
  refine ⟨format_data_eq line bar_chars W stb h1 h2 hbc (by omega), ?_, ?_⟩
  · rw [List.head?_map, List.head?_eq_getElem?,
      finalValues_getElem_zero line W h1 (by omega), Option.map_some']
  · rw [List.getLast?_map, List.getLast?_eq_getElem?, finalValues_length,
      finalValues_getElem_last line W h1 hW, Option.map_some']

/-- Claim C8 witness: for `"1;2"`, glyphs `"▁▂▃"`, width 2 the output is
`"▂▃"` — first glyph `"▂"` maps sample 1, last glyph `"▃"` maps
sample 2. -/
theorem c8_amended_endpoints_witness :
    format_data "1;2" (strGlyphs "▁▂▃") (some 2) (Standby.num 0)
      = some "▂▃" ∧
    ((finalValues "1;2" 2).map (glyphOf (strGlyphs "▁▂▃"))).head? =
      some "▂" ∧
    ((finalValues "1;2" 2).map (glyphOf (strGlyphs "▁▂▃"))).getLast? =
      some "▃" := by
  have h := c8_amended_endpoints "1;2" (strGlyphs "▁▂▃") 2 (Standby.num 0)
    (by decide) (by decide) (by decide) (by decide)
  exact ⟨h.1.trans (by decide), h.2.1.trans (by decide), h.2.2.trans (by decide)⟩

/-- Claim C2 counterexample: the claim's quantification over every
glyph sequence and width fails on the code — with width 0 and policy 2
the standby rendering repeats the last glyph the glyph-count (8) times
(Python's falsy-width fallback `width or len(bar_chars)`) rather than
width (0) times, and with an empty glyph sequence policy 2 raises
`IndexError` on `bar_chars[-1]` instead of returning a rendering. -/
theorem c2_counterexample :
    format_data "" defaultGlyphs (some 0) (Standby.num 2) =
      some "████████" ∧
    ("████████" : String) ≠ "" ∧
    handle_standby_mode (Standby.num 2) ([] : List String) (some 5) = none := by
  refine ⟨by decide, by decide, rfl⟩

/-- Claim C2 (amended): for every nonempty glyph sequence, width `w ≥ 1`
and standby policy, a line that is empty, parses to no values, or parses
to all-zero values makes `format_data` return the standby rendering, and
the standby rendering is: a string policy verbatim; `0` the empty
string; `1` the blank placeholder; `2` the last glyph repeated `w`
times; `3` the first glyph repeated `w` times; any other number its
decimal string. (With an empty glyph sequence policies 2/3 raise
`IndexError`, and a falsy width makes them repeat glyph-count times, so
those cases are excluded.) -/
theorem c2_standby_rendering (line : String) (bar_chars : List String) (w : ℕ)
    (stb : Standby) (hbc : bar_chars ≠ []) (hw : 1 ≤ w)
    (hline : pyStrip line = "" ∨ parseValues (pyStrip line) = [] ∨
      (parseValues (pyStrip line)).all (· == 0) = true) :
    format_data line bar_chars (some w) stb =
      handle_standby_mode stb bar_chars (some w) ∧
    (∀ s, handle_standby_mode (.str s) bar_chars (some w) = some s) ∧
    (handle_standby_mode (.num 0) bar_chars (some w) = some "") ∧
    (handle_standby_mode (.num 1) bar_chars (some w) = some "‎ ") ∧
    (handle_standby_mode (.num 2) bar_chars (some w) =
      some (String.join (List.replicate w (bar_chars.getLast hbc)))) ∧
    (handle_standby_mode (.num 3) bar_chars (some w) =
      some (String.join (List.replicate w (bar_chars.head hbc)))) ∧
    (∀ n : ℤ, n ≠ 0 → n ≠ 1 → n ≠ 2 → n ≠ 3 →
      handle_standby_mode (.num n) bar_chars (some w) = some (toString n)) := by
  have hw0 : w ≠ 0 := by omega
  have hsw : standbyWidth (some w) bar_chars.length = w := by
    simp [standbyWidth, hw0]
  refine ⟨?_, ?_, ?_, ?_, ?_, ?_, ?_⟩
  · rcases hline with h | h | h
    · simp [format_data, h]
    · by_cases ht : pyStrip line = "" <;> simp [format_data, ht, h]
    · by_cases ht : pyStrip line = "" <;> simp [format_data, ht, h]
  · intro s; rfl
  · rfl
  · rfl
  · simp [handle_standby_mode, hsw, List.getLast?_eq_getLast _ hbc]
  · simp [handle_standby_mode, hsw, List.head?_eq_head hbc]
  · intro n h0 h1 h2 h3
    simp [handle_standby_mode, h0, h1, h2, h3]

/-- Claim C2 witness: the scenario from the specification — empty line,
standby policy 2, eight default glyphs, width 5 renders `"█████"`. -/
theorem c2_standby_rendering_witness :
    format_data "" defaultGlyphs (some 5) (Standby.num 2) = some "█████" := by
  have h := c2_standby_rendering "" defaultGlyphs 5 (Standby.num 2)
    (by decide) (by decide) (Or.inl (by decide))
  exact h.1.trans (by decide)

/-- Claim C3 counterexample: the claim says an embedded-config value
overrides the command-line value, but `_get_config_value` consults the
command-line attribute first: with `--width 20` and config width 10 the
resolved width is 20, not 10. -/
theorem c3_counterexample :
    resolve_width (some 20) (some 10) defaultGlyphs = 20 ∧ (20 : ℤ) ≠ 10 := by
  constructor
  · rfl
  · decide

/-- Claim C3 (amended): a command-line value that exists and is not
`None` overrides the embedded host configuration, which overrides the
built-in defaults (glyphs `▁▂▃▄▅▆▇█`, width = glyph count, standby =
hide); the glyph-array command-line argument is never consulted because
the attribute lookup uses the hyphenated key `"bar-array"`. -/
theorem c3_amended :
    (∀ (a : ℤ) (cfg : Option ℤ) (d : ℤ), get_config_value (some a) cfg d = a) ∧
    (∀ (c d : ℤ), get_config_value none (some c) d = c) ∧
    (∀ d : ℤ, get_config_value (α := ℤ) none none d = d) ∧
    (∀ (aw : ℤ) (cw : Option ℤ), resolve_width (some aw) cw defaultGlyphs = aw) ∧
    (∀ cw : ℤ, resolve_width none (some cw) defaultGlyphs = cw) ∧
    (resolve_width none none defaultGlyphs = (defaultGlyphs.length : ℤ)) ∧
    (∀ aArr, resolve_bar_chars none aArr none none = defaultGlyphs) ∧
    (resolve_stb none none = Standby.num 0) := by
  refine ⟨fun a cfg d => rfl, fun c d => rfl, fun d => rfl,
    fun aw cw => rfl, fun cw => rfl, by decide, fun aArr => rfl, rfl⟩

/-- Claim C4 counterexample: with `CAVA_BARS=8` in the environment and
an explicit CLI bar count of 32, the generated configuration uses 8 —
the environment variable overrides the explicit CLI argument, contrary
to the claim. -/
theorem c4_counterexample :
    resolveCavaParams ⟨some "8", none, none, none⟩ 32 15 "stereo" 0 =
      some ⟨8, 15, "stereo", 0⟩ ∧ (8 : ℤ) ≠ 32 := by
  constructor
  · decide
  · decide

/-- Claim C4 (amended): each `CAVA_*` environment variable, when set,
takes precedence over the corresponding parameter — including an
explicitly supplied CLI value — and with no environment overrides the
CLI parameters pass through unchanged. -/
theorem c4_amended (b r : ℤ) (c : String) (v : ℤ) (s t : String) (n : ℤ)
    (h : pyInt s = some n) :
    ((resolveCavaParams ⟨some s, none, none, none⟩ b r c v).map
      CavaConfigParams.bars = some n) ∧
    ((resolveCavaParams ⟨none, some s, none, none⟩ b r c v).map
      CavaConfigParams.range_val = some n) ∧
    (resolveCavaParams ⟨none, none, some t, none⟩ b r c v = some ⟨b, r, t, v⟩) ∧
    ((resolveCavaParams ⟨none, none, none, some s⟩ b r c v).map
      CavaConfigParams.reverse = some n) ∧
    (resolveCavaParams emptyEnv b r c v = some ⟨b, r, c, v⟩) := by
  refine ⟨?_, ?_, rfl, ?_, rfl⟩ <;> simp [resolveCavaParams, h]

/-- Claim C4 witness: instantiation at `CAVA_BARS=8` against CLI bars
32, and at the empty environment. -/
theorem c4_amended_witness :
    ((resolveCavaParams ⟨some "8", none, none, none⟩ 32 15 "stereo" 0).map
      CavaConfigParams.bars = some 8) ∧
    resolveCavaParams emptyEnv 32 15 "stereo" 0 = some ⟨32, 15, "stereo", 0⟩ := by
  have h := c4_amended 32 15 "stereo" 0 "8" "mono" 8 (by decide)
  exact ⟨h.1, h.2.2.2.2⟩

/-- Claim C5 counterexample: a broadcast pass on the freshly started
broker — no subscriber has ever connected, flag unset, analyzer alive —
already sets `should_shutdown` and kills the analyzer, and the main wait
loop (watching the separate `shutdown_event`) still continues, so no
process exit follows either. -/
theorem c5_counterexample :
    broadcast_data ⟨[], false, false, true⟩ (fun _ => false) =
      ⟨[], true, false, false⟩ ∧
    main_loop_continues
      (broadcast_data ⟨[], false, false, true⟩ (fun _ => false)) = true := by
  exact ⟨rfl, rfl⟩

/-- Claim C5 (amended): any broadcast pass that leaves the subscriber
set empty while the flag is unset — including a pass before any
subscriber has ever connected — sets `should_shutdown` and terminates
the analyzer but leaves `shutdown_event` untouched, so the main wait
loop does not exit; a pass that leaves at least one subscriber changes
neither the flag nor the analyzer. -/
theorem c5_amended (s : BrokerState) (f : ℕ → Bool) :
    ((broadcast_data s f).clients = [] → s.should_shutdown = false →
      (broadcast_data s f).should_shutdown = true ∧
      (broadcast_data s f).cava_alive = false ∧
      (broadcast_data s f).shutdown_event = s.shutdown_event) ∧
    ((broadcast_data s f).clients ≠ [] →
      (broadcast_data s f).should_shutdown = s.should_shutdown ∧
      (broadcast_data s f).cava_alive = s.cava_alive ∧
      (broadcast_data s f).shutdown_event = s.shutdown_event) := by
  obtain ⟨cl, flag, ev, al⟩ := s
  by_cases h : (cl.filter (fun c => !(f c))) = [] <;> cases flag <;>
    simp [broadcast_data, h, List.isEmpty_iff]

/-- Claim C5 witness: the pass in which the single remaining subscriber
fails sets the flag, kills the analyzer, and leaves the main loop's
event unset. -/
theorem c5_amended_witness :
    (broadcast_data ⟨[1], false, false, true⟩ (fun _ => true)).should_shutdown
      = true ∧
    (broadcast_data ⟨[1], false, false, true⟩ (fun _ => true)).cava_alive
      = false ∧
    (broadcast_data ⟨[1], false, false, true⟩ (fun _ => true)).shutdown_event
      = false :=
  (c5_amended ⟨[1], false, false, true⟩ (fun _ => true)).1 rfl rfl

/-- Claim C6 counterexample: when the liveness check reports a live
broker, the `manager` command exits with status 0, so no non-zero exit
status exists for that run. -/
theorem c6_counterexample :
    ¬ ∃ c : ℕ, c ≠ 0 ∧ manager_command true 16 15 "stereo" 0 =
      ManagerOutcome.exited c := by
  rintro ⟨c, hc, h⟩
  simp [manager_command] at h
  exact hc h.symm

/-- Claim C6 (amended): when another instance is alive the `manager`
command refuses to start and exits, but with status zero (after an
informational message); when none is alive it proceeds to start with
the given CLI parameters. -/
theorem c6_amended (b r : ℤ) (c : String) (v : ℤ) :
    manager_command true b r c v = ManagerOutcome.exited 0 ∧
    manager_command false b r c v = ManagerOutcome.started b r c v :=
  ⟨rfl, rfl⟩

/-- Claim C7: the liveness check is a total boolean-valued function of
the observed world — it reports alive exactly when the socket connects
or the pid file names a live process — and it deletes every stale
artifact it detects: an existing unconnectable socket file, and (when
the socket did not prove liveness) a pid file with malformed contents
or a dead pid. -/
theorem c7_liveness_registry (w : World) :
    ((quick_check_running w).1 =
      (w.socket_exists && w.socket_connectable ||
        (match w.pid_file with
         | some s =>
           match pyInt s with
           | some pid => w.processAlive pid
           | none => false
         | none => false))) ∧
    (w.socket_exists = true → w.socket_connectable = false →
      (quick_check_running w).2.socket_exists = false) ∧
    (¬(w.socket_exists = true ∧ w.socket_connectable = true) →
      ∀ s, w.pid_file = some s →
        (pyInt s = none → (quick_check_running w).2.pid_file = none) ∧
        (∀ pid, pyInt s = some pid → w.processAlive pid = false →
          (quick_check_running w).2.pid_file = none)) := by
  have hval : ∀ w2 : World, (check_pid_file w2).1 =
      (match w2.pid_file with
       | some s =>
         match pyInt s with
         | some pid => w2.processAlive pid
         | none => false
       | none => false) := by
    intro w2
    obtain ⟨a, b, pf2, pa2⟩ := w2
    cases pf2 with
    | none => rfl
    | some s =>
      cases hpi : pyInt s with
      | none => simp [check_pid_file, hpi]
      | some pid => cases hpa : pa2 pid <;> simp [check_pid_file, hpi, hpa]
  have hsock : ∀ w2 : World, (check_pid_file w2).2.socket_exists = w2.socket_exists := by
    intro w2
    obtain ⟨a, b, pf2, pa2⟩ := w2
    cases pf2 with
    | none => rfl
    | some s =>
      cases hpi : pyInt s with
      | none => simp [check_pid_file, hpi]
      | some pid => cases hpa : pa2 pid <;> simp [check_pid_file, hpi, hpa]
  have hdel : ∀ w2 : World, ∀ s, w2.pid_file = some s →
      (pyInt s = none → (check_pid_file w2).2.pid_file = none) ∧
      (∀ pid, pyInt s = some pid → w2.processAlive pid = false →
        (check_pid_file w2).2.pid_file = none) := by
    intro w2 s hs
    obtain ⟨a, b, pf2, pa2⟩ := w2
    simp only at hs
    subst hs
    constructor
    · intro hpi; simp [check_pid_file, hpi]
    · intro pid hpi hdead
      simp only at hdead
      simp [check_pid_file, hpi, hdead]
  obtain ⟨se, sc, pf, pa⟩ := w
  cases se <;> cases sc <;>
    refine ⟨?_, ?_, ?_⟩ <;>
      simp only [quick_check_running, Bool.true_and, Bool.false_and,
        Bool.true_or, Bool.false_or, if_true, if_false, Bool.true_eq_false,
        Bool.false_eq_true, and_true, and_false, true_and, false_and,
        not_false_iff, not_true_eq_false, IsEmpty.forall_iff,
        forall_true_left, ite_true, ite_false, reduceIte] <;>
    first
    | rfl
    | exact hval _
    | exact fun _ => hsock _
    | exact hsock _
    | (intro s hs; exact hdel _ s hs)

/-- Claim C7 witness: a world with an orphaned socket file and a
malformed pid file — the check deletes both and reports not-alive. -/
theorem c7_liveness_registry_witness :
    (quick_check_running ⟨true, false, some "junk", fun _ => false⟩).2.socket_exists
      = false ∧
    (quick_check_running ⟨true, false, some "junk", fun _ => false⟩).2.pid_file
      = none ∧
    (quick_check_running ⟨true, false, some "junk", fun _ => false⟩).1 = false := by
  have h := c7_liveness_registry ⟨true, false, some "junk", fun _ => false⟩
  refine ⟨h.2.1 rfl rfl, (h.2.2 (by simp) "junk" rfl).1 (by decide), ?_⟩
  rw [h.1]
  decide

/-- Claim C9 counterexample: with the default standby policy `0` the
standby rendering is the empty string, which is falsy, so the client
emits no initial record at all — not exactly one. -/
theorem c9_counterexample :
    handle_standby_mode (Standby.num 0) defaultGlyphs (some 8) = some "" ∧
    client_initial_records (Standby.num 0) defaultGlyphs (some 8) = some [] := by
  exact ⟨rfl, rfl⟩

/-- Claim C9 (amended): on connect the client emits exactly one
standby-formatted record — text the standby rendering, tooltip the
standby status string — precisely when that rendering is non-empty, and
no record when the rendering is empty. -/
theorem c9_amended (stb : Standby) (bc : List String) (w : Option ℕ)
    (s : String) (h : handle_standby_mode stb bc w = some s) :
    (s ≠ "" → client_initial_records stb bc w =
      some [⟨s, "Cava audio visualizer - standby mode"⟩]) ∧
    (s = "" → client_initial_records stb bc w = some []) := by
  unfold client_initial_records
  rw [h]
  constructor <;> intro hs <;> simp [hs]

/-- Claim C9 witness: with standby policy 2 and width 5 the client
emits the single record `{"text": "█████", "tooltip": ...}`. -/
theorem c9_amended_witness :
    client_initial_records (Standby.num 2) defaultGlyphs (some 5) =
      some [⟨"█████", "Cava audio visualizer - standby mode"⟩] :=
  (c9_amended (Standby.num 2) defaultGlyphs (some 5) "█████" (by decide)).1
    (by decide)

/-- Claim C10: reloading regenerates the analyzer configuration from
the built-in defaults `(16, 15, "stereo", 0)` rather than the broker's
original CLI parameters, so with no environment overrides any broker
started with non-default parameters gets a different configuration
after reload. -/
theorem c10_reload_uses_defaults (b r : ℤ) (c : String) (v : ℤ)
    (h : ¬(b = 16 ∧ r = 15 ∧ c = "stereo" ∧ v = 0)) :
    reload_config_params emptyEnv = some ⟨16, 15, "stereo", 0⟩ ∧
    resolveCavaParams emptyEnv b r c v = some ⟨b, r, c, v⟩ ∧
    reload_config_params emptyEnv ≠ resolveCavaParams emptyEnv b r c v := by
  refine ⟨rfl, rfl, ?_⟩
  intro heq
  rw [show reload_config_params emptyEnv = some ⟨16, 15, "stereo", 0⟩ from rfl,
    show resolveCavaParams emptyEnv b r c v = some ⟨b, r, c, v⟩ from rfl] at heq
  injection heq with heq2
  cases heq2
  exact h ⟨rfl, rfl, rfl, rfl⟩

/-- Claim C10 witness: a broker started with `--bars 32` and no
environment overrides sees its configuration change on reload. -/
theorem c10_reload_uses_defaults_witness :
    reload_config_params emptyEnv = some ⟨16, 15, "stereo", 0⟩ ∧
    resolveCavaParams emptyEnv 32 15 "stereo" 0 = some ⟨32, 15, "stereo", 0⟩ ∧
    reload_config_params emptyEnv ≠ resolveCavaParams emptyEnv 32 15 "stereo" 0 :=
  c10_reload_uses_defaults 32 15 "stereo" 0 (by decide)

end Cava
